import Mathlib

/-!
Verification of the GPTQModel repository slice: the Qwen2-VL GPTQ model
adapter (`gptqmodel/models/definitions/qwen2_vl.py`) and the OLoRA/AdaLoRA
XPU fine-tuning test script (`tests/test_olora_finetuning_xpu.py`).

Third-party library calls (transformers processors/tokenizers/models, PEFT,
PIL) are embedded as abstract function parameters ("environments"): the code
under verification only threads their results around, so every theorem is
stated for an arbitrary environment.
-/

namespace GPTQ

/-! ## Calibration batching (`gptqmodel/utils/calibration.py`) -/

/-- Modelled from the spec: the helper `batched` lives in
`gptqmodel/utils/calibration.py`, which is not part of this repository slice;
the spec describes the calibration-data assembly loop as "a few lines of
batching/dictionary construction". `batched l n f` splits `l` into
consecutive batches of `n` samples (the last batch possibly shorter),
applying the per-sample function `f` to every sample; with `n = 0` (rejected
by the real helper's batch-size assertion) it yields no batches.
`batchedGo` is the recursion of `batched`, made structural on a fuel
argument: one unit of fuel per sample suffices, since every batch consumes
at least one sample when `n ≥ 1`. -/
def batchedGo {α : Type} {β : Type} (f : α → β) (n : Nat) :
    Nat → List α → List (List β)
  | _, [] => []
  | 0, _ :: _ => []
  | fuel + 1, x :: xs =>
    (List.take n (x :: xs)).map f :: batchedGo f n fuel (List.drop n (x :: xs))

/-- The batch splitter (see `batchedGo` above for the recursion and the
provenance note). -/
def batched {α : Type} {β : Type} (l : List α) (n : Nat) (f : α → β) : List (List β) :=
  if n = 0 then [] else batchedGo f n l.length l

/-! ## Vision info plumbing

A Python `dict` passed around as a "vision info" is embedded as an
association list of string keys; `hasKey` is Python's `key in dict`.
`extract_vision_info` and `fetch_image` (from `gptqmodel/utils/image.py`,
outside this slice) are abstract fields of a `VisionEnv`: the adapter only
calls them. -/

abbrev VisionInfo (Val : Type) : Type := List (String × Val)

/-- Python's `k in vision_info` membership test on a dict. -/
def hasKey {Val : Type} (vi : VisionInfo Val) (k : String) : Bool :=
  vi.any fun p => p.1 == k

/-- The external functions `Qwen2VLGPTQ.process_vision_info` delegates to. -/
structure VisionEnv (Conv Val Img : Type) where
  extract_vision_info : Conv → List (VisionInfo Val)
  fetch_image : VisionInfo Val → Img

namespace Qwen2VLGPTQ

/-- The transformers loader classes referenced by this repository slice. -/
inductive HFLoader where
  | AutoModelForVision2Seq
  | AutoModelForCausalLM
deriving DecidableEq

/-- The `MODALITY` enum constructors referenced from
`gptqmodel/models/definitions/qwen2_vl.py` (the enum itself lives in
`gptqmodel/utils/model.py`, outside this slice). -/
inductive MODALITY where
  | TEXT
  | IMAGE_TO_TEXT
deriving DecidableEq

/-! ### Class attributes of `Qwen2VLGPTQ` -/

def loader : HFLoader := HFLoader.AutoModelForVision2Seq

def base_modules : List String := ["model.embed_tokens", "model.norm"]

def layers_node : String := "model.layers"

def layer_type : String := "Qwen2VLDecoderLayer"

def layer_modules : List (List String) :=
  [["self_attn.k_proj", "self_attn.v_proj", "self_attn.q_proj"],
   ["self_attn.o_proj"],
   ["mlp.up_proj", "mlp.gate_proj"],
   ["mlp.down_proj"]]

def modality : List MODALITY := [ MODALITY.TEXT, MODALITY.IMAGE_TO_TEXT ]

/-! ### `process_vision_info` -/

/-- The image-reading loop of `process_vision_info`: for each vision info
holding an `"image"` or `"image_url"` key the fetched image is accumulated,
otherwise a `ValueError` is raised (embedded as `Except.error`). -/
def readImages {Conv Val Img : Type} (env : VisionEnv Conv Val Img) :
    List (VisionInfo Val) → Except String (List Img)
  | [] => Except.ok []
  | vi :: rest =>
    if hasKey vi "image" || hasKey vi "image_url" then
      match readImages env rest with
      | Except.ok imgs => Except.ok (env.fetch_image vi :: imgs)
      | Except.error e => Except.error e
    else
      Except.error "image, image_url should in content."

/-- `Qwen2VLGPTQ.process_vision_info`: extract the vision infos, fetch one
image per info (raising when an info has neither an `"image"` nor an
`"image_url"` key), and collapse an empty image list to `None`. -/
def process_vision_info {Conv Val Img : Type} (env : VisionEnv Conv Val Img)
    (conversations : Conv) : Except String (Option (List Img)) :=
  match readImages env (env.extract_vision_info conversations) with
  | Except.error e => Except.error e
  | Except.ok image_inputs =>
    Except.ok (if image_inputs.length = 0 then none else some image_inputs)

/-- `Qwen2VLGPTQ.preprocess_dataset` returns its sample argument. -/
def preprocess_dataset {Sample : Type} (sample : Sample) : Sample := sample

/-! ### `prepare_dataset` -/

/-- The processor obtained from `AutoProcessor.from_pretrained`, abstracted
to the two operations `prepare_dataset` invokes on it: `apply_chat_template`
(with its `tokenize` and `add_generation_prompt` flags) and the processor
call itself (text, images, videos, `padding`, `return_tensors`). -/
structure ProcessorEnv (Sample Text Img Video Entry : Type) where
  apply_chat_template : List Sample → Bool → Bool → Text
  call : Text → Option (List Img) → Option Video → Bool → String → Entry

/-- The `for batch in batched(...)` loop body of `prepare_dataset`, with the
`calib_data` accumulator made explicit; a `ValueError` from
`process_vision_info` propagates out. -/
def prepareLoop {Sample Text Img Video Entry Val : Type}
    (penv : ProcessorEnv Sample Text Img Video Entry)
    (venv : VisionEnv (List Sample) Val Img) :
    List (List Sample) → List Entry → Except String (List Entry)
  | [], calib_data => Except.ok calib_data
  | batch :: rest, calib_data =>
    let text := penv.apply_chat_template batch false true
    match process_vision_info venv batch with
    | Except.error e => Except.error e
    | Except.ok image_inputs =>
      let inputs := penv.call text image_inputs none true "pt"
      prepareLoop penv venv rest (calib_data ++ [inputs])

/-- `Qwen2VLGPTQ.prepare_dataset`: run the loop over
`batched(calibration_dataset, batch_size, process_func=preprocess_dataset)`
starting from an empty `calib_data`. -/
def prepare_dataset {Sample Text Img Video Entry Val : Type}
    (penv : ProcessorEnv Sample Text Img Video Entry)
    (venv : VisionEnv (List Sample) Val Img)
    (calibration_dataset : List Sample) (batch_size : Nat) :
    Except String (List Entry) :=
  prepareLoop penv venv (batched calibration_dataset batch_size preprocess_dataset) []

/-- The calibration entry `prepare_dataset` builds for one batch, as the
claim describes it: the processor applied to the batch's chat-template text
(`tokenize=False`, `add_generation_prompt=True`), the batch's vision inputs
from `process_vision_info`, `videos=None`, `padding=True`,
`return_tensors="pt"`. -/
def batchEntry {Sample Text Img Video Entry Val : Type}
    (penv : ProcessorEnv Sample Text Img Video Entry)
    (venv : VisionEnv (List Sample) Val Img) (batch : List Sample) : Entry :=
  penv.call (penv.apply_chat_template batch false true)
    (((process_vision_info venv batch).toOption).getD none) none true "pt"

end Qwen2VLGPTQ

/-! ## The OLoRA/AdaLoRA XPU fine-tuning test script
(`tests/test_olora_finetuning_xpu.py`)

`train` is a sequence of library calls; it is embedded as a function from an
abstract library environment and the script's arguments to the trace of
calls made, together with an assertion failure when one of the two
`assert model.device.type == "xpu"` statements fires. -/

namespace OLoraXpu

/-- `GPTQConfig(bits=..., dataset=...)` from transformers. -/
structure GPTQConfig where
  bits : Nat
  dataset : List String
deriving DecidableEq

/-- A `device_map` value: one of the string forms (`"auto"`, `"cpu"`,
`"cuda"`, `"xpu"`, ...) or the `{"": Accelerator().process_index}` dict of
the DDP branch. -/
inductive DeviceMap where
  | str : String → DeviceMap
  | processIndex : Nat → DeviceMap
deriving DecidableEq

/-- The keyword arguments `train` passes to
`AutoModelForCausalLM.from_pretrained`. -/
structure ModelKwargs where
  torch_dtype : String
  device_map : DeviceMap
  quantization_config : Option GPTQConfig := none
deriving DecidableEq

/-- The `AdaLoraConfig` the script builds. `init_lora_weights = none` records
that the keyword was not passed to the constructor, so the PEFT library
default applies. -/
structure AdaLoraConfig where
  r : Nat
  lora_alpha : Nat
  target_modules : Option (List String)
  lora_dropout : Rat
  bias : String
  task_type : String
  total_step : Nat
  init_lora_weights : Option String := none
deriving DecidableEq

/-- The `transformers.TrainingArguments` fields the script sets. -/
structure TrainerArgs where
  per_device_train_batch_size : Nat
  warmup_steps : Nat
  num_train_epochs : Nat
  learning_rate : Rat
  logging_steps : Nat
  optim : String
  evaluation_strategy : String
  save_strategy : String
  eval_steps : Nat
  save_steps : Nat
  output_dir : String
  save_total_limit : Nat
  load_best_model_at_end : Bool
  ddp_find_unused_parameters : Option Bool
deriving DecidableEq

/-- The parameters of `train`, with the script's default values. -/
structure Args where
  base_model : String := "path/to/model"
  data_path : String := "yahma/alpaca-cleaned"
  output_dir : String := "olora"
  batch_size : Nat := 16
  num_epochs : Nat := 1
  learning_rate : Rat := 3 / 10000
  cutoff_len : Nat := 256
  val_set_size : Nat := 16
  quantize : Bool := false
  eval_step : Nat := 100
  save_step : Nat := 100
  device_map : String := "auto"
  lora_r : Nat := 32
  lora_alpha : Nat := 16
  lora_dropout : Rat := 5 / 100
  lora_target_modules : Option (List String) := none
  torch_dtype : String := "float16"
  init_lora_weights : String := "olora"
  seed : Option Nat := none
deriving DecidableEq

/-- A loaded model, abstracted to the only attribute the script reads:
`model.device.type`. -/
structure Model where
  device_type : String
deriving DecidableEq

/-- The `input_ids`/`attention_mask` pair a tokenizer call returns. -/
structure TokOutput where
  input_ids : List Nat
  attention_mask : List Nat
deriving DecidableEq

/-- A loaded tokenizer, abstracted to what the script uses of it: the
tokenizing call (prompt and `max_length`, with `truncation=True`,
`padding=False`, `return_tensors=None` fixed by the script), the eos token
id, and the pad/eos special tokens. -/
structure Tokenizer where
  run : String → Nat → TokOutput
  eos_token_id : Nat
  pad_token : Option String
  eos_token : String

/-- The result dict of the inner `tokenize` function. -/
structure TokenizeResult where
  input_ids : List Nat
  attention_mask : List Nat
  labels : List Nat
deriving DecidableEq

/-- The library entry points `train` calls, plus the process environment
variables it reads. -/
structure TrainEnv where
  world_size_env : Nat
  pmi_size_env : Nat
  process_index : Nat
  from_pretrained : String → ModelKwargs → Model
  load_tokenizer : String → Tokenizer
  get_peft_model : Model → AdaLoraConfig → Model

/-- One step of the trace of library calls `train` makes. -/
inductive Event where
  | set_seed (n : Nat)
  | load_model (base : String) (kwargs : ModelKwargs)
  | load_tokenizer (base : String)
  | set_pad_token_to_eos
  | build_adalora_config (c : AdaLoraConfig)
  | get_peft (c : AdaLoraConfig)
  | load_dataset (path : String)
  | build_trainer (t : TrainerArgs)
  | trainer_train
  | save_pretrained (dir : String)
deriving DecidableEq

/-- A fired `assert` statement. -/
inductive TrainError where
  | assertionError
deriving DecidableEq

/-- `world_size = int(os.environ.get("WORLD_SIZE", 0)) or
int(os.environ.get("PMI_SIZE", 0))`: Python's `or` yields the second operand
exactly when the first is `0`. -/
def computeWorldSize (env : TrainEnv) : Nat :=
  if env.world_size_env ≠ 0 then env.world_size_env else env.pmi_size_env

/-- The DDP rebinding of `device_map`: with more than one process and a
non-`"cpu"` `device_map` it becomes `{"": Accelerator().process_index}`.
`train` never consults the rebound value again. -/
def resolveDeviceMap (env : TrainEnv) (args : Args) : DeviceMap :=
  if computeWorldSize env > 1 ∧ args.device_map ≠ "cpu" then
    DeviceMap.processIndex env.process_index
  else DeviceMap.str args.device_map

/-- `model_kwargs`: the torch dtype and `device_map="xpu"`, plus
`GPTQConfig(bits=4, dataset=['allenai/c4'])` when `quantize` is set. -/
def mkModelKwargs (args : Args) : ModelKwargs :=
  let kwargs : ModelKwargs :=
    { torch_dtype := args.torch_dtype, device_map := DeviceMap.str "xpu" }
  if args.quantize then
    { kwargs with quantization_config := some { bits := 4, dataset := ["allenai/c4"] } }
  else kwargs

/-- The `AdaLoraConfig(...)` constructor call of `train`. The script passes
`r`, `lora_alpha`, `target_modules`, `lora_dropout`, `bias="none"`,
`task_type="CAUSAL_LM"` and `total_step=20`; it does not pass
`init_lora_weights`, so that field keeps its not-passed default. -/
def mkAdaLoraConfig (args : Args) : AdaLoraConfig :=
  { r := args.lora_r
    lora_alpha := args.lora_alpha
    target_modules := args.lora_target_modules
    lora_dropout := args.lora_dropout
    bias := "none"
    task_type := "CAUSAL_LM"
    total_step := 20 }

/-- The `transformers.TrainingArguments(...)` call of `train`. -/
def mkTrainerArgs (world_size : Nat) (args : Args) : TrainerArgs :=
  { per_device_train_batch_size := args.batch_size
    warmup_steps := 100
    num_train_epochs := args.num_epochs
    learning_rate := args.learning_rate
    logging_steps := 100
    optim := "adamw_torch"
    evaluation_strategy := "steps"
    save_strategy := "steps"
    eval_steps := args.eval_step
    save_steps := args.save_step
    output_dir := args.output_dir
    save_total_limit := 3
    load_best_model_at_end := true
    ddp_find_unused_parameters := if world_size > 1 then some false else none }

/-- The inner `tokenize` closure of `train`: run the tokenizer (truncating to
`cutoff_len`, no padding), append the eos token (with attention value 1) when
the last token differs from it, the tokenized length is below `cutoff_len`
and `add_eos_token` is set, and let `labels` be a copy of the final
`input_ids`. Python evaluates `result["input_ids"][-1]` first, which on an
empty list is an `IndexError`, embedded as `none`. -/
def tokenize (tokenizer : Tokenizer) (cutoff_len : Nat) (prompt : String)
    (add_eos_token : Bool) : Option TokenizeResult :=
  let result := tokenizer.run prompt cutoff_len
  match result.input_ids.getLast? with
  | none => none
  | some last =>
    if last ≠ tokenizer.eos_token_id ∧ result.input_ids.length < cutoff_len ∧
        add_eos_token = true then
      some { input_ids := result.input_ids ++ [tokenizer.eos_token_id]
             attention_mask := result.attention_mask ++ [1]
             labels := result.input_ids ++ [tokenizer.eos_token_id] }
    else
      some { input_ids := result.input_ids
             attention_mask := result.attention_mask
             labels := result.input_ids }

/-- The `set_seed(seed)` call, made exactly when a seed was given. -/
def seedEvents (args : Args) : List Event :=
  match args.seed with
  | some s => [Event.set_seed s]
  | none => []

/-- The pad-token defaulting: `tokenizer.pad_token = tokenizer.eos_token`
exactly when the tokenizer has no pad token. -/
def padEvents (tokenizer : Tokenizer) : List Event :=
  if tokenizer.pad_token = none then [Event.set_pad_token_to_eos] else []

/-- The body of `train`, as the trace of library calls it makes, paired with
`some TrainError.assertionError` when one of the two
`assert model.device.type == "xpu"` statements fires (the trace then stops
at the failed assertion). -/
def train (env : TrainEnv) (args : Args) : List Event × Option TrainError :=
  let _device_map := resolveDeviceMap env args
  if (env.from_pretrained args.base_model (mkModelKwargs args)).device_type = "xpu" then
    if (env.get_peft_model (env.from_pretrained args.base_model (mkModelKwargs args))
        (mkAdaLoraConfig args)).device_type = "xpu" then
      (seedEvents args
        ++ [Event.load_model args.base_model (mkModelKwargs args),
            Event.load_tokenizer args.base_model]
        ++ padEvents (env.load_tokenizer args.base_model)
        ++ [Event.build_adalora_config (mkAdaLoraConfig args),
            Event.get_peft (mkAdaLoraConfig args),
            Event.load_dataset args.data_path,
            Event.build_trainer (mkTrainerArgs (computeWorldSize env) args),
            Event.trainer_train,
            Event.save_pretrained args.output_dir], none)
    else
      (seedEvents args
        ++ [Event.load_model args.base_model (mkModelKwargs args),
            Event.load_tokenizer args.base_model]
        ++ padEvents (env.load_tokenizer args.base_model)
        ++ [Event.build_adalora_config (mkAdaLoraConfig args),
            Event.get_peft (mkAdaLoraConfig args)], some TrainError.assertionError)
  else
    (seedEvents args ++ [Event.load_model args.base_model (mkModelKwargs args)],
      some TrainError.assertionError)

/-- Recognizer for the tokenizer-loading step (used to state call order). -/
def Event.isLoadTokenizer : Event → Bool
  | Event.load_tokenizer _ => true
  | _ => false

/-- Recognizer for the pad-token defaulting step. -/
def Event.isSetPadToken : Event → Bool
  | Event.set_pad_token_to_eos => true
  | _ => false

/-- Recognizer for the trainer-construction step. -/
def Event.isBuildTrainer : Event → Bool
  | Event.build_trainer _ => true
  | _ => false

/-- Recognizer for the `trainer.train()` step. -/
def Event.isTrainerTrain : Event → Bool
  | Event.trainer_train => true
  | _ => false

/-- Recognizer for the `model.save_pretrained(output_dir)` step. -/
def Event.isSave : Event → Bool
  | Event.save_pretrained _ => true
  | _ => false

/-- The arguments of the `Test.test_peft` call of `train` (its `output_dir`
is a fresh temporary directory, abstracted here as a fixed name). -/
def testArgs : Args :=
  { base_model := "hugging-quants/Meta-Llama-3.1-8B-Instruct-GPTQ-INT4"
    data_path := "yahma/alpaca-cleaned"
    output_dir := "tmp_dir"
    batch_size := 16
    num_epochs := 1
    learning_rate := 3 / 10000
    cutoff_len := 256
    val_set_size := 16
    quantize := true
    eval_step := 100
    save_step := 100
    device_map := "cuda"
    lora_r := 32
    lora_alpha := 16
    lora_dropout := 5 / 100
    lora_target_modules := none
    torch_dtype := "float16"
    init_lora_weights := "olora"
    seed := some 1234 }

end OLoraXpu

/-! ## Concrete instances used by the closed witness theorems -/

/-- A concrete vision environment over `Nat` images: a conversation is a list
of numbers, each contributing one vision info carrying an `"image"` key. -/
def wVisionEnv : VisionEnv (List Nat) Nat Nat :=
  { extract_vision_info := fun c => c.map fun k => [("image", k)]
    fetch_image := fun vi => (vi.headD ("image", 0)).2 }

/-- A concrete processor environment: the chat-template text of a batch is
the sum of its samples, and a processor call records text and images. -/
def wProcessorEnv : Qwen2VLGPTQ.ProcessorEnv Nat Nat Nat Unit (Nat × Option (List Nat)) :=
  { apply_chat_template := fun batch _ _ => batch.sum
    call := fun text images _ _ _ => (text, images) }

/-- A concrete tokenizer: every prompt tokenizes to `[5, 6]` with mask
`[1, 1]`, the eos token id is `2`, and there is no pad token. -/
def wTokenizer : OLoraXpu.Tokenizer :=
  { run := fun _ _ => { input_ids := [5, 6], attention_mask := [1, 1] }
    eos_token_id := 2
    pad_token := none
    eos_token := "</s>" }

/-- A concrete single-process library environment in which every loaded or
PEFT-wrapped model reports device type `"xpu"`. -/
def wTrainEnv : OLoraXpu.TrainEnv :=
  { world_size_env := 0
    pmi_size_env := 0
    process_index := 0
    from_pretrained := fun _ _ => { device_type := "xpu" }
    load_tokenizer := fun _ => wTokenizer
    get_peft_model := fun m _ => m }

/-! # Theorems

First the Qwen2-VL adapter, then the fine-tuning script. -/

namespace Qwen2VLGPTQ

/-- A vision info is acceptable when it carries an `"image"` or an
`"image_url"` key: the image-reading loop of `process_vision_info` succeeds
on a list of vision infos exactly when all of them are acceptable, and then
yields one fetched image per info, in order. -/
theorem readImages_ok {Conv Val Img : Type} (env : VisionEnv Conv Val Img)
    (vis : List (VisionInfo Val))
    (h : ∀ vi ∈ vis, (hasKey vi "image" || hasKey vi "image_url") = true) :
    readImages env vis = Except.ok (vis.map env.fetch_image) := by
  induction vis with
  | nil => rfl
  | cons vi rest ih =>
    have h1 := h vi (by simp)
    have h2 : ∀ v ∈ rest, (hasKey v "image" || hasKey v "image_url") = true :=
      fun v hv => h v (by simp [hv])
    simp [readImages, h1, ih h2]

/-- The image-reading loop raises as soon as one vision info is not
acceptable. -/
theorem readImages_error {Conv Val Img : Type} (env : VisionEnv Conv Val Img)
    (vis : List (VisionInfo Val))
    (h : ∃ vi ∈ vis, ¬((hasKey vi "image" || hasKey vi "image_url") = true)) :
    ∃ e, readImages env vis = Except.error e := by
  induction vis with
  | nil => simp at h
  | cons vi rest ih =>
    by_cases h1 : (hasKey vi "image" || hasKey vi "image_url") = true
    · have h2 : ∃ v ∈ rest, ¬((hasKey v "image" || hasKey v "image_url") = true) := by
        rcases h with ⟨v, hv, hbad⟩
        rcases List.mem_cons.mp hv with rfl | hv2
        · exact absurd h1 hbad
        · exact ⟨v, hv2, hbad⟩
      rcases ih h2 with ⟨e, he⟩
      exact ⟨e, by simp [readImages, h1, he]⟩
    · exact ⟨"image, image_url should in content.", by simp [readImages, h1]⟩

/-- C8: `process_vision_info` raises `ValueError` if and only if some
extracted vision info contains neither an `"image"` nor an `"image_url"`
key; when it does not raise, it returns `None` exactly when no vision infos
were extracted, and otherwise a non-empty list with one fetched image per
vision info, in order. -/
theorem process_vision_info_spec {Conv Val Img : Type} (env : VisionEnv Conv Val Img)
    (conversations : Conv) :
    ((∃ e, process_vision_info env conversations = Except.error e) ↔
      ∃ vi ∈ env.extract_vision_info conversations,
        hasKey vi "image" = false ∧ hasKey vi "image_url" = false)
    ∧ (∀ r, process_vision_info env conversations = Except.ok r →
        ((r = none ↔ env.extract_vision_info conversations = [])
          ∧ ∀ l, r = some l →
              l ≠ [] ∧ l = (env.extract_vision_info conversations).map env.fetch_image)) := by
  by_cases hall : ∀ vi ∈ env.extract_vision_info conversations,
      (hasKey vi "image" || hasKey vi "image_url") = true
  · have hok := readImages_ok env (env.extract_vision_info conversations) hall
    constructor
    · constructor
      · rintro ⟨e, he⟩
        rw [process_vision_info, hok] at he
        simp at he
      · rintro ⟨vi, hvi, him, hurl⟩
        have := hall vi hvi
        rw [him, hurl] at this
        simp at this
    · intro r hr
      rw [process_vision_info, hok] at hr
      have hr2 := Except.ok.inj hr
      constructor
      · constructor
        · intro hnone
          rw [← hr2] at hnone
          by_cases hz : (env.extract_vision_info conversations).map env.fetch_image = []
          · simpa using congrArg List.length hz
          · rw [if_neg (by simpa [List.length_eq_zero] using hz)] at hnone
            simp at hnone
        · intro hnil
          rw [← hr2, hnil]
          simp
      · intro l hl
        rw [← hr2] at hl
        by_cases hz : ((env.extract_vision_info conversations).map env.fetch_image).length = 0
        · rw [if_pos hz] at hl
          simp at hl
        · rw [if_neg hz] at hl
          have := Option.some.inj hl
          refine ⟨?_, this.symm⟩
          rw [← this]
          intro hfalse
          rw [hfalse] at hz
          simp at hz
  · push_neg at hall
    rcases hall with ⟨vi, hvi, hbad⟩
    have herr := readImages_error env (env.extract_vision_info conversations) ⟨vi, hvi, hbad⟩
    rcases herr with ⟨e, he⟩
    constructor
    · constructor
      · intro _
        refine ⟨vi, hvi, ?_, ?_⟩
        · cases him : hasKey vi "image" with
          | false => rfl
          | true => exact absurd (by simp [him]) hbad
        · cases hurl : hasKey vi "image_url" with
          | false => rfl
          | true => exact absurd (by simp [hurl]) hbad
      · intro _
        exact ⟨e, by rw [process_vision_info, he]⟩
    · intro r hr
      rw [process_vision_info, he] at hr
      simp at hr

/-- C10: `preprocess_dataset` is the identity on samples, so batching with it
as the per-sample process function is batching with the identity. -/
theorem preprocess_dataset_id {Sample : Type} :
    (∀ sample : Sample, preprocess_dataset sample = sample)
    ∧ ∀ (calibration_dataset : List Sample) (batch_size : Nat),
        batched calibration_dataset batch_size preprocess_dataset =
          batched calibration_dataset batch_size (fun s => s) :=
  ⟨fun _ => rfl, fun _ _ => rfl⟩

/-- The calibration loop of `prepare_dataset`, run from any accumulator:
when it succeeds it appends exactly one processor entry per batch, in
order. -/
theorem prepareLoop_ok {Sample Text Img Video Entry Val : Type}
    (penv : ProcessorEnv Sample Text Img Video Entry)
    (venv : VisionEnv (List Sample) Val Img) (batches : List (List Sample)) :
    ∀ (acc out : List Entry), prepareLoop penv venv batches acc = Except.ok out →
      out = acc ++ batches.map (batchEntry penv venv) := by
  induction batches with
  | nil =>
    intro acc out h
    simp only [prepareLoop] at h
    have := Except.ok.inj h
    simp [this]
  | cons batch rest ih =>
    intro acc out h
    simp only [prepareLoop] at h
    cases hpv : process_vision_info venv batch with
    | error e => rw [hpv] at h; simp at h
    | ok v =>
      rw [hpv] at h
      have h2 := ih _ _ h
      rw [h2]
      simp [batchEntry, hpv, Except.toOption]

/-- C1: for every calibration dataset and batch size at least 1, a
successful `prepare_dataset` returns exactly one entry per batch of
`batched(calibration_dataset, batch_size)`, and each entry is the processor
output built from the batch's chat-template text (`tokenize=False`,
`add_generation_prompt=True`), the batch's vision inputs from
`process_vision_info`, `videos=None`, `padding=True` and
`return_tensors="pt"`. -/
theorem prepare_dataset_batches {Sample Text Img Video Entry Val : Type}
    (penv : ProcessorEnv Sample Text Img Video Entry)
    (venv : VisionEnv (List Sample) Val Img)
    (calibration_dataset : List Sample) (batch_size : Nat) (out : List Entry)
    (_hbs : 1 ≤ batch_size)
    (hok : prepare_dataset penv venv calibration_dataset batch_size = Except.ok out) :
    out = (batched calibration_dataset batch_size (fun s => s)).map (batchEntry penv venv)
    ∧ out.length = (batched calibration_dataset batch_size (fun s => s)).length := by
  have h := prepareLoop_ok penv venv
    (batched calibration_dataset batch_size preprocess_dataset) [] out hok
  have hb : batched calibration_dataset batch_size (@preprocess_dataset Sample) =
      batched calibration_dataset batch_size (fun s => s) := rfl
  rw [hb] at h
  simp only [List.nil_append] at h
  exact ⟨h, by rw [h, List.length_map]⟩

/-- Witness for C1: `prepare_dataset` on the dataset `[1, 2, 3]` with batch
size 2 over the concrete environments. -/
theorem prepare_dataset_batches_witness :
    ([(3, some [1, 2]), (3, some [3])] : List (Nat × Option (List Nat))) =
      (batched [1, 2, 3] 2 (fun s : Nat => s)).map (batchEntry wProcessorEnv wVisionEnv)
    ∧ ([(3, some [1, 2]), (3, some [3])] : List (Nat × Option (List Nat))).length =
      (batched [1, 2, 3] 2 (fun s : Nat => s)).length :=
  prepare_dataset_batches wProcessorEnv wVisionEnv [1, 2, 3] 2
    [(3, some [1, 2]), (3, some [3])] (by decide) (by rfl)

/-- C5: the fixed layer-decomposition configuration of the adapter. -/
theorem layer_decomposition_config :
    layers_node = "model.layers"
    ∧ layer_type = "Qwen2VLDecoderLayer"
    ∧ base_modules = ["model.embed_tokens", "model.norm"]
    ∧ layer_modules = [["self_attn.k_proj", "self_attn.v_proj", "self_attn.q_proj"],
        ["self_attn.o_proj"], ["mlp.up_proj", "mlp.gate_proj"], ["mlp.down_proj"]] :=
  ⟨rfl, rfl, rfl, rfl⟩

/-- C7: the adapter's loader is `AutoModelForVision2Seq` and its modality
list is exactly `[MODALITY.TEXT, MODALITY.IMAGE_TO_TEXT]`. -/
theorem loader_and_modality :
    loader = HFLoader.AutoModelForVision2Seq
    ∧ modality = [ MODALITY.TEXT, MODALITY.IMAGE_TO_TEXT ] :=
  ⟨rfl, rfl⟩

end Qwen2VLGPTQ

namespace OLoraXpu

/-- Both branches of the `model_kwargs` construction set `device_map` to
`"xpu"`. -/
theorem mkModelKwargs_device_map (args : Args) :
    (mkModelKwargs args).device_map = DeviceMap.str "xpu" := by
  unfold mkModelKwargs
  by_cases h : args.quantize <;> simp [h]

/-- `seedEvents` holds only seed-setting events. -/
theorem mem_seedEvents {e : Event} (args : Args) (h : e ∈ seedEvents args) :
    ∃ n, e = Event.set_seed n := by
  unfold seedEvents at h
  cases hs : args.seed with
  | none => rw [hs] at h; simp at h
  | some s => rw [hs] at h; simp at h; exact ⟨s, h⟩

/-- `padEvents` holds only the pad-token defaulting event. -/
theorem mem_padEvents {e : Event} (t : Tokenizer) (h : e ∈ padEvents t) :
    e = Event.set_pad_token_to_eos := by
  unfold padEvents at h
  split at h <;> simp_all

/-- A model-loading event never comes from the seed-setting step. -/
theorem load_model_not_mem_seedEvents (args : Args) (base : String) (kw : ModelKwargs) :
    ¬(Event.load_model base kw ∈ seedEvents args) := by
  intro h
  rcases mem_seedEvents args h with ⟨n, hn⟩
  cases hn

/-- A model-loading event never comes from the pad-token defaulting step. -/
theorem load_model_not_mem_padEvents (t : Tokenizer) (base : String) (kw : ModelKwargs) :
    ¬(Event.load_model base kw ∈ padEvents t) := by
  intro h
  cases mem_padEvents t h

/-- The only model-loading event in a `train` trace carries the script's
`model_kwargs`. -/
theorem train_load_model_kwargs (env : TrainEnv) (args : Args) (base : String)
    (kw : ModelKwargs) (hmem : Event.load_model base kw ∈ (train env args).1) :
    kw = mkModelKwargs args := by
  simp only [train] at hmem
  split at hmem
  · split at hmem
    · simp [load_model_not_mem_seedEvents, load_model_not_mem_padEvents] at hmem
      exact hmem.2
    · simp [load_model_not_mem_seedEvents, load_model_not_mem_padEvents] at hmem
      exact hmem.2
  · simp [load_model_not_mem_seedEvents] at hmem
    exact hmem.2

/-- The tokenizer-loading event never comes from the seed-setting step. -/
theorem load_tokenizer_not_mem_seedEvents (args : Args) (b : String) :
    ¬(Event.load_tokenizer b ∈ seedEvents args) := by
  intro h
  rcases mem_seedEvents args h with ⟨n, hn⟩
  cases hn

/-- The dataset-loading event never comes from the seed-setting step. -/
theorem load_dataset_not_mem_seedEvents (args : Args) (p : String) :
    ¬(Event.load_dataset p ∈ seedEvents args) := by
  intro h
  rcases mem_seedEvents args h with ⟨n, hn⟩
  cases hn

/-- The dataset-loading event never comes from the pad-token defaulting
step. -/
theorem load_dataset_not_mem_padEvents (t : Tokenizer) (p : String) :
    ¬(Event.load_dataset p ∈ padEvents t) := by
  intro h
  cases mem_padEvents t h

/-- Execution reaches the tokenizer-loading call only if the freshly loaded
model sits on the `"xpu"` device (the first assertion held). -/
theorem train_past_load (env : TrainEnv) (args : Args)
    (h : Event.load_tokenizer args.base_model ∈ (train env args).1) :
    (env.from_pretrained args.base_model (mkModelKwargs args)).device_type = "xpu" := by
  by_cases hc : (env.from_pretrained args.base_model (mkModelKwargs args)).device_type = "xpu"
  · exact hc
  · exfalso
    simp only [train, if_neg hc] at h
    simp [load_tokenizer_not_mem_seedEvents] at h

/-- Execution reaches the dataset-loading call only if the PEFT-wrapped
model sits on the `"xpu"` device (the second assertion held). -/
theorem train_past_peft (env : TrainEnv) (args : Args)
    (h : Event.load_dataset args.data_path ∈ (train env args).1) :
    (env.get_peft_model (env.from_pretrained args.base_model (mkModelKwargs args))
      (mkAdaLoraConfig args)).device_type = "xpu" := by
  by_cases hc2 : (env.get_peft_model (env.from_pretrained args.base_model (mkModelKwargs args))
      (mkAdaLoraConfig args)).device_type = "xpu"
  · exact hc2
  · exfalso
    by_cases hc1 : (env.from_pretrained args.base_model (mkModelKwargs args)).device_type = "xpu"
    · simp only [train, if_pos hc1, if_neg hc2] at h
      simp [load_dataset_not_mem_seedEvents, load_dataset_not_mem_padEvents] at h
    · simp only [train, if_neg hc1] at h
      simp [load_dataset_not_mem_seedEvents] at h

/-- C2: in a run with world size at most 1 the model is loaded with
`device_map="xpu"` (whatever the `device_map` argument was), and execution
proceeds past loading, and past `get_peft_model`, only if the respective
model's device type is `"xpu"`: the two assertions hold. -/
theorem train_single_process_xpu (env : TrainEnv) (args : Args)
    (_hws : computeWorldSize env ≤ 1) :
    (∀ base kw, Event.load_model base kw ∈ (train env args).1 →
      kw.device_map = DeviceMap.str "xpu")
    ∧ (Event.load_tokenizer args.base_model ∈ (train env args).1 →
      (env.from_pretrained args.base_model (mkModelKwargs args)).device_type = "xpu")
    ∧ (Event.load_dataset args.data_path ∈ (train env args).1 →
      (env.get_peft_model (env.from_pretrained args.base_model (mkModelKwargs args))
        (mkAdaLoraConfig args)).device_type = "xpu") :=
  ⟨fun base kw hmem => by
      rw [train_load_model_kwargs env args base kw hmem]
      exact mkModelKwargs_device_map args,
    train_past_load env args,
    train_past_peft env args⟩

/-- Witness for C2: the concrete single-process environment, with the
script's default arguments. -/
theorem train_single_process_xpu_witness :
    (∀ base kw, Event.load_model base kw ∈ (train wTrainEnv {}).1 →
      kw.device_map = DeviceMap.str "xpu")
    ∧ (Event.load_tokenizer ({} : Args).base_model ∈ (train wTrainEnv {}).1 →
      (wTrainEnv.from_pretrained ({} : Args).base_model (mkModelKwargs {})).device_type = "xpu")
    ∧ (Event.load_dataset ({} : Args).data_path ∈ (train wTrainEnv {}).1 →
      (wTrainEnv.get_peft_model
        (wTrainEnv.from_pretrained ({} : Args).base_model (mkModelKwargs {}))
        (mkAdaLoraConfig {})).device_type = "xpu") :=
  train_single_process_xpu wTrainEnv {} (by decide)

/-- C4: the model-loading kwargs hold a 4-bit GPTQ quantization config
(dataset `allenai/c4`) exactly when `quantize` is set, and otherwise are
exactly the torch dtype and the device map. -/
theorem model_kwargs_quantize_iff (args : Args) :
    ((mkModelKwargs args).quantization_config =
      some { bits := 4, dataset := ["allenai/c4"] } ↔ args.quantize = true)
    ∧ (args.quantize = false →
      mkModelKwargs args =
        { torch_dtype := args.torch_dtype,
          device_map := DeviceMap.str "xpu", quantization_config := none }) := by
  unfold mkModelKwargs
  by_cases h : args.quantize <;> simp [h]

/-- C3 (evidence of the divergence): the `AdaLoraConfig` built by `train`
for the test's arguments does not receive the `init_lora_weights="olora"`
argument — the field stays unset, so the PEFT library default applies — and
the built config does not depend on the `init_lora_weights` argument at
all. -/
theorem init_lora_weights_not_forwarded :
    (mkAdaLoraConfig testArgs).init_lora_weights = none
    ∧ mkAdaLoraConfig testArgs =
      mkAdaLoraConfig { testArgs with init_lora_weights := "gaussian" } :=
  ⟨rfl, rfl⟩

/-- A completed run of `train` (no assertion fired) produces the full trace:
seed setting, model loading, tokenizer loading, pad-token defaulting, config
construction, PEFT wrapping, dataset loading, trainer construction,
training, saving. -/
theorem train_ok_trace (env : TrainEnv) (args : Args)
    (h : (train env args).2 = none) :
    (train env args).1 = seedEvents args
      ++ [Event.load_model args.base_model (mkModelKwargs args),
          Event.load_tokenizer args.base_model]
      ++ padEvents (env.load_tokenizer args.base_model)
      ++ [Event.build_adalora_config (mkAdaLoraConfig args),
          Event.get_peft (mkAdaLoraConfig args),
          Event.load_dataset args.data_path,
          Event.build_trainer (mkTrainerArgs (computeWorldSize env) args),
          Event.trainer_train,
          Event.save_pretrained args.output_dir] := by
  by_cases h1 : (env.from_pretrained args.base_model (mkModelKwargs args)).device_type = "xpu"
  · by_cases h2 : (env.get_peft_model (env.from_pretrained args.base_model (mkModelKwargs args))
        (mkAdaLoraConfig args)).device_type = "xpu"
    · simp only [train, if_pos h1, if_pos h2]
    · simp only [train, if_pos h1, if_neg h2] at h
      simp at h
  · simp only [train, if_neg h1] at h
    simp at h

/-- C6: in every completed run of `train`, the tokenizer setup (loading the
tokenizer and, when it happens, defaulting the pad token) comes before the
trainer construction, which comes before `trainer.train()`, which comes
before saving the model to `output_dir`. -/
theorem train_call_order (env : TrainEnv) (args : Args)
    (h : (train env args).2 = none) :
    ((train env args).1.findIdx Event.isLoadTokenizer <
      (train env args).1.findIdx Event.isBuildTrainer)
    ∧ ((train env args).1.findIdx Event.isBuildTrainer <
      (train env args).1.findIdx Event.isTrainerTrain)
    ∧ ((train env args).1.findIdx Event.isTrainerTrain <
      (train env args).1.findIdx Event.isSave)
    ∧ ((train env args).1.findIdx Event.isSave < (train env args).1.length)
    ∧ (Event.set_pad_token_to_eos ∈ (train env args).1 →
      (train env args).1.findIdx Event.isSetPadToken <
        (train env args).1.findIdx Event.isBuildTrainer) := by
  rw [train_ok_trace env args h]
  unfold seedEvents padEvents
  rcases hs : args.seed with _ | s <;>
    by_cases hp : (env.load_tokenizer args.base_model).pad_token = none <;>
      simp [hp, List.findIdx_cons, Event.isLoadTokenizer, Event.isSetPadToken,
        Event.isBuildTrainer, Event.isTrainerTrain, Event.isSave]

/-- Witness for C6: the concrete single-process environment with the default
arguments completes, and the call order holds there. -/
theorem train_call_order_witness :
    ((train wTrainEnv {}).1.findIdx Event.isLoadTokenizer <
      (train wTrainEnv {}).1.findIdx Event.isBuildTrainer)
    ∧ ((train wTrainEnv {}).1.findIdx Event.isBuildTrainer <
      (train wTrainEnv {}).1.findIdx Event.isTrainerTrain)
    ∧ ((train wTrainEnv {}).1.findIdx Event.isTrainerTrain <
      (train wTrainEnv {}).1.findIdx Event.isSave)
    ∧ ((train wTrainEnv {}).1.findIdx Event.isSave < (train wTrainEnv {}).1.length)
    ∧ (Event.set_pad_token_to_eos ∈ (train wTrainEnv {}).1 →
      (train wTrainEnv {}).1.findIdx Event.isSetPadToken <
        (train wTrainEnv {}).1.findIdx Event.isBuildTrainer) :=
  train_call_order wTrainEnv {} (by decide)

/-- C9: the inner `tokenize` function yields labels equal to `input_ids`, an
attention mask of the same length as `input_ids`, at most `cutoff_len`
tokens, and appends the eos token (with attention value 1) exactly when
`add_eos_token` holds, the last raw token differs from the eos id, and the
raw tokenized length is strictly below `cutoff_len` — assuming the library
tokenizer returns parallel `input_ids`/`attention_mask` lists truncated to
`cutoff_len`. -/
theorem tokenize_result_spec (tokenizer : Tokenizer) (cutoff_len : Nat)
    (prompt : String) (add_eos_token : Bool) (r : TokenizeResult)
    (hmask : (tokenizer.run prompt cutoff_len).attention_mask.length =
      (tokenizer.run prompt cutoff_len).input_ids.length)
    (htrunc : (tokenizer.run prompt cutoff_len).input_ids.length ≤ cutoff_len)
    (hr : tokenize tokenizer cutoff_len prompt add_eos_token = some r) :
    r.labels = r.input_ids
    ∧ r.attention_mask.length = r.input_ids.length
    ∧ r.input_ids.length ≤ cutoff_len
    ∧ ((r.input_ids = (tokenizer.run prompt cutoff_len).input_ids ++ [tokenizer.eos_token_id]
        ∧ r.attention_mask = (tokenizer.run prompt cutoff_len).attention_mask ++ [1])
      ↔ (add_eos_token = true
        ∧ (tokenizer.run prompt cutoff_len).input_ids.getLast? ≠ some tokenizer.eos_token_id
        ∧ (tokenizer.run prompt cutoff_len).input_ids.length < cutoff_len)) := by
  simp only [tokenize] at hr
  split at hr
  · simp at hr
  · rename_i last hlast
    split at hr
    · rename_i hc
      obtain rfl := Option.some.inj hr
      refine ⟨rfl, by simp [hmask], by simp; omega, ?_⟩
      refine iff_of_true ⟨rfl, rfl⟩ ⟨hc.2.2, ?_, hc.2.1⟩
      rw [hlast]
      intro hbad
      exact hc.1 (Option.some.inj hbad)
    · rename_i hc
      obtain rfl := Option.some.inj hr
      refine ⟨rfl, hmask, htrunc, ?_⟩
      refine iff_of_false ?_ ?_
      · intro hbad
        have := congrArg List.length hbad.1
        simp at this
      · intro hbad
        apply hc
        refine ⟨?_, hbad.2.2, hbad.1⟩
        intro heq
        apply hbad.2.1
        rw [hlast, heq]

/-- Witness for C9: the concrete tokenizer with `cutoff_len = 4` on a prompt
that tokenizes to `[5, 6]`; the eos token (id 2) is appended. -/
theorem tokenize_result_spec_witness :
    ([5, 6, 2] : List Nat) = [5, 6, 2]
    ∧ ([1, 1, 1] : List Nat).length = ([5, 6, 2] : List Nat).length
    ∧ ([5, 6, 2] : List Nat).length ≤ 4
    ∧ ((([5, 6, 2] : List Nat) = [5, 6] ++ [2]
        ∧ ([1, 1, 1] : List Nat) = [1, 1] ++ [1])
      ↔ (true = true
        ∧ ([5, 6] : List Nat).getLast? ≠ some 2
        ∧ ([5, 6] : List Nat).length < 4)) :=
  tokenize_result_spec wTokenizer 4 "p" true ⟨[5, 6, 2], [1, 1, 1], [5, 6, 2]⟩
    (by decide) (by decide) (by decide)

end OLoraXpu

end GPTQ

